import Mathlib

/-
Verification of the rollup device driver
(rollup-http/rollup-http-server/src/rollup/mod.rs).

Modelling conventions:
- Rust strings are modelled as their UTF-8 byte sequences, `List Nat`
  (each element a byte value below 256). For the ASCII literals used
  throughout, the helper `ascii` converts a Lean string to its bytes.
- Machine integers: u64/u32/usize fields are `Nat` (with an explicit
  `% 2 ^ 32` where the source truncates `as u32`), i32 status codes are
  `Int`.
- A Rust panic (out-of-bounds string slice) is modelled by `Option`:
  `none` is a panic, `some r` a normal return of `r`.
- The native libcmt session is an external collaborator: a `Device`
  value records the observable response of each native call (status
  code and any data the call writes back). Each driver function also
  returns the list of native calls it issued, so that claims of the
  form "no native call occurs" are expressible.
-/

deriving instance DecidableEq for Except

/-- Byte sequence of an ASCII Lean string literal (for the ASCII
strings appearing in the source, UTF-8 bytes coincide with the
code points). -/
def ascii (s : String) : List Nat :=
  s.data.map Char.toNat

/-- Hex-digit test matching the character class `[0-9a-fA-F]` (and the
set of bytes accepted by the hex crate decoder). -/
def isHexDigit (c : Nat) : Bool :=
  decide ((48 ≤ c ∧ c ≤ 57) ∨ (97 ≤ c ∧ c ≤ 102) ∨ (65 ≤ c ∧ c ≤ 70))

/-- Lowercase hex digit, as produced by the hex crate encoder. -/
def isLowerHexDigit (c : Nat) : Bool :=
  decide ((48 ≤ c ∧ c ≤ 57) ∨ (97 ≤ c ∧ c ≤ 102))

/-- Lowercase hex character for a nibble, as in the hex crate table
`HEX_CHARS_LOWER`; 0-9 map to bytes 48-57, 10-15 to bytes 97-102. -/
def hexCharOfDigit (d : Nat) : Nat :=
  if d < 10 then 48 + d else 87 + d

/-- The hex crate `encode` on a byte sequence: two lowercase hex
characters per byte, high nibble first (`byte >> 4`, `byte & 0xf` on a
u8, hence the `% 256`). -/
def hexEncode : List Nat → List Nat
  | [] => []
  | b :: bs => hexCharOfDigit (b % 256 / 16) :: hexCharOfDigit (b % 16) :: hexEncode bs

/-- Error type of the hex crate decoder (`hex::FromHexError`). -/
inductive FromHexError
  | invalidHexCharacter (c : Nat) (index : Nat)
  | oddLength
  | invalidStringLength
deriving DecidableEq

/-- Value of one hex character, `none` when the byte is not a hex
digit (the hex crate `val` function). -/
def hexDigitVal (c : Nat) : Option Nat :=
  if 48 ≤ c ∧ c ≤ 57 then some (c - 48)
  else if 97 ≤ c ∧ c ≤ 102 then some (c - 87)
  else if 65 ≤ c ∧ c ≤ 70 then some (c - 55)
  else none

/-- Pairwise decoding loop of the hex crate: each chunk of two
characters becomes one byte, the first non-hex character is reported
with its position. The odd-length case is checked before this loop
runs, so the singleton case is unreachable on actual inputs. -/
def hexDecodePairs : List Nat → Nat → Except FromHexError (List Nat)
  | [], _ => Except.ok []
  | [_], _ => Except.error FromHexError.oddLength
  | c1 :: c2 :: rest, i =>
    match hexDigitVal c1 with
    | none => Except.error (FromHexError.invalidHexCharacter c1 i)
    | some hi =>
      match hexDigitVal c2 with
      | none => Except.error (FromHexError.invalidHexCharacter c2 (i + 1))
      | some lo =>
        match hexDecodePairs rest (i + 2) with
        | Except.error e => Except.error e
        | Except.ok bs => Except.ok ((hi * 16 + lo) :: bs)

/-- The hex crate `decode`: fails on odd length, otherwise decodes
pairwise. -/
def hexDecode (s : List Nat) : Except FromHexError (List Nat) :=
  if s.length % 2 ≠ 0 then Except.error FromHexError.oddLength
  else hexDecodePairs s 0

/-- Display rendering of `FromHexError` (the character itself is
quoted and escaped by Rust; only the surrounding text matters here). -/
def hexErrorDisplay : FromHexError → String
  | FromHexError.invalidHexCharacter c index =>
      "Invalid character " ++ String.singleton (Char.ofNat c) ++ " at position " ++ toString index
  | FromHexError.oddLength => "Odd number of digits"
  | FromHexError.invalidStringLength => "Invalid string length"

/-- Rust `str::is_char_boundary` on the UTF-8 bytes: position 0 and the
end are boundaries, an interior position is a boundary when its byte is
not a continuation byte (`(b as i8) >= -0x40`). -/
def isCharBoundary (s : List Nat) (i : Nat) : Bool :=
  if i = 0 then true
  else
    match s.get? i with
    | some b => decide (b < 128 ∨ 192 ≤ b)
    | none => decide (i = s.length)

/-- The slice `&text[2..]` used by every emitter: panics (`none`)
unless byte position 2 is a char boundary of the string. -/
def sliceFrom2 (s : List Nat) : Option (List Nat) :=
  if isCharBoundary s 2 then some (s.drop 2) else none

/-- Hex decode as inlined by all four emitters:
`hex::decode(&text[2..])` — slice off the first two bytes unchecked,
then hex-decode the remainder. `none` models the slice panic. -/
def rollupDecode (s : List Nat) : Option (Except FromHexError (List Nat)) :=
  match sliceFrom2 s with
  | none => none
  | some rest => some (hexDecode rest)

/-- Hex encode as inlined by the request readers:
`"0x".to_string() + &hex::encode(bytes)`. -/
def rollupEncode (bs : List Nat) : List Nat :=
  ascii "0x" ++ hexEncode bs

/-- Matching of the tail-anchored part `0x[0-9a-fA-F]{lo,hi}$` at a
fixed start position: the remaining text is `0x` followed by between
`lo` and `hi` hex digits running to the end of the string. -/
def matchesHexTail (lo hi : Nat) : List Nat → Bool
  | 48 :: 120 :: ds => ds.all isHexDigit && decide (lo ≤ ds.length) && decide (ds.length ≤ hi)
  | _ => false

/-- `Regex::is_match` semantics of the end-anchored, start-unanchored
pattern `0x[0-9a-fA-F]{lo,hi}$`: a match may start at any position. -/
def regexSearchAnchoredEnd (lo hi : Nat) (s : List Nat) : Bool :=
  (List.range (s.length + 1)).any (fun i => matchesHexTail lo hi (s.drop i))

/-- `ETH_ADDR_REGEXP.is_match`: pattern `0x[0-9a-fA-F]{1,42}$`. -/
def ETH_ADDR_REGEXP_is_match (s : List Nat) : Bool :=
  regexSearchAnchoredEnd 1 42 s

/-- `ETH_U256_REGEXP.is_match`: pattern `0x[0-9a-fA-F]{1,64}$`. -/
def ETH_U256_REGEXP_is_match (s : List Nat) : Bool :=
  regexSearchAnchoredEnd 1 64 s

-- Sanity examples for the embedding (kept as anonymous examples).
example : hexEncode [222, 173, 190, 239] = ascii "deadbeef" := by decide
example : hexDecode (ascii "DeAd") = Except.ok [222, 173] := by decide
example : rollupDecode (ascii "0x01") = some (Except.ok [1]) := by decide
example : rollupDecode (ascii "0") = none := by decide
example : ETH_ADDR_REGEXP_is_match (ascii "0x") = false := by decide
example : ETH_ADDR_REGEXP_is_match (ascii "zz0xab") = true := by decide

/-- Error struct `RollupError { message: String }`. -/
structure RollupError where
  message : String
deriving DecidableEq

/-- `RollupError::new`. -/
def RollupError.new (message : String) : RollupError :=
  { message := message }

/-- Display impl of `RollupError`: `rollup error: {message}` (also what
`e.to_string()` produces when the outer layer wraps the error). -/
def RollupError.display (e : RollupError) : String :=
  "rollup error: " ++ e.message

/-- `std::io::ErrorKind` values used by this driver. -/
inductive IoErrorKind
  | other
  | unsupported
deriving DecidableEq

/-- A `std::io::Error` built with `Error::new(kind, message)`. -/
structure IoError where
  kind : IoErrorKind
  message : String
deriving DecidableEq

/-- Struct `RollupFinish` (i32 request type, usize length). -/
structure RollupFinish where
  accept_previous_request : Bool
  next_request_type : Int
  next_request_payload_length : Nat
deriving DecidableEq

/-- `RollupFinish::default()` from the Default derive. -/
def RollupFinish.default : RollupFinish :=
  { accept_previous_request := false, next_request_type := 0, next_request_payload_length := 0 }

/-- The C transfer struct `cmt_rollup_finish_t` (u32 length field). -/
structure cmt_rollup_finish_t where
  accept_previous_request : Bool
  next_request_type : Int
  next_request_payload_length : Nat
deriving DecidableEq

/-- `From<&mut RollupFinish> for cmt_rollup_finish_t`: fields are
copied, the usize length is truncated `as u32`. -/
def cmt_rollup_finish_t.from (other : RollupFinish) : cmt_rollup_finish_t :=
  { next_request_type := other.next_request_type,
    accept_previous_request := other.accept_previous_request,
    next_request_payload_length := other.next_request_payload_length % 2 ^ 32 }

/-- `From<cmt_rollup_finish_t> for RollupFinish`: fields copied back,
the u32 length widened `as usize`. -/
def RollupFinish.fromCmt (other : cmt_rollup_finish_t) : RollupFinish :=
  { next_request_type := other.next_request_type,
    accept_previous_request := other.accept_previous_request,
    next_request_payload_length := other.next_request_payload_length }

/-- Descriptor `cmt_rollup_advance_t` as filled by the device. The
device-owned payload region is modelled by the byte list the driver
copies out (`payload_length` bytes starting at the payload pointer). -/
structure cmt_rollup_advance_t where
  chain_id : Nat
  msg_sender : List Nat
  app_contract : List Nat
  block_number : Nat
  block_timestamp : Nat
  index : Nat
  payload : List Nat
deriving DecidableEq

/-- Descriptor `cmt_rollup_inspect_t` as filled by the device. -/
structure cmt_rollup_inspect_t where
  payload : List Nat
deriving DecidableEq

/-- Struct `AdvanceMetadata` (msg_sender held as hex text). -/
structure AdvanceMetadata where
  msg_sender : List Nat
  input_index : Nat
  block_number : Nat
  block_timestamp : Nat
deriving DecidableEq

/-- `From<cmt_rollup_advance_t> for AdvanceMetadata`: the sender bytes
are hex-encoded behind a `0x` prefix, the numeric fields copied. -/
def AdvanceMetadata.from (other : cmt_rollup_advance_t) : AdvanceMetadata :=
  { input_index := other.index,
    block_timestamp := other.block_timestamp,
    block_number := other.block_number,
    msg_sender := ascii "0x" ++ hexEncode other.msg_sender }

/-- Struct `AdvanceRequest`. -/
structure AdvanceRequest where
  metadata : AdvanceMetadata
  payload : List Nat
deriving DecidableEq

/-- Struct `InspectRequest`. -/
structure InspectRequest where
  payload : List Nat
deriving DecidableEq

/-- Enum `RollupRequest`. -/
inductive RollupRequest
  | Inspect (r : InspectRequest)
  | Advance (r : AdvanceRequest)
deriving DecidableEq

/-- Struct `Notice`. -/
structure Notice where
  payload : List Nat
deriving DecidableEq

/-- Struct `Voucher`. -/
structure Voucher where
  destination : List Nat
  value : List Nat
  payload : List Nat
deriving DecidableEq

/-- Struct `Report`. -/
structure Report where
  payload : List Nat
deriving DecidableEq

/-- Struct `Exception`. -/
structure Exception where
  payload : List Nat
deriving DecidableEq

/-- One native libcmt call issued by the driver, with the data the
driver passes across the boundary. -/
inductive NativeCall
  | finish (arg : cmt_rollup_finish_t)
  | readAdvance
  | readInspect
  | emitNotice (payload : List Nat)
  | emitVoucher (destination : List Nat) (value : List Nat) (payload : List Nat)
  | emitReport (payload : List Nat)
  | emitException (payload : List Nat)
deriving DecidableEq

/-- Observable behaviour of the native session for one call of each
kind: the status code each native call returns and the data it writes
into the driver-supplied out-parameters. -/
structure Device where
  finish_status : Int
  finish_out : cmt_rollup_finish_t
  advance_status : Int
  advance_out : cmt_rollup_advance_t
  inspect_status : Int
  inspect_out : cmt_rollup_inspect_t
  emit_notice_status : Int
  notice_index : Nat
  emit_voucher_status : Int
  voucher_index : Nat
  emit_report_status : Int
  emit_exception_status : Int
deriving DecidableEq

/-- `rollup_finish_request`: converts the caller struct, issues the
native finish call, and only on a negative status fails (leaving the
caller struct untouched); otherwise the caller struct is overwritten
with the struct the device filled. Returns (calls issued, final value
of the `finish` in-out parameter, result). -/
def rollup_finish_request (dev : Device) (finish : RollupFinish) :
    List NativeCall × RollupFinish × Except RollupError Unit :=
  let finish_c := cmt_rollup_finish_t.from finish
  let res := dev.finish_status
  if res < 0 then
    ([NativeCall.finish finish_c], finish,
     Except.error (RollupError.new ("IOCTL_ROLLUP_FINISH returned error " ++ toString res)))
  else
    ([NativeCall.finish finish_c], RollupFinish.fromCmt dev.finish_out, Except.ok ())

/-- `rollup_read_advance_state_request`: issues the advance-read native
call; a nonzero status fails; a zero-length payload is logged; the
payload bytes are copied out and hex-encoded behind `0x`. Returns
(calls issued, log lines, result). -/
def rollup_read_advance_state_request (dev : Device) :
    List NativeCall × List String × Except RollupError AdvanceRequest :=
  let res := dev.advance_status
  if res ≠ 0 then
    ([NativeCall.readAdvance], [],
     Except.error (RollupError.new ("IOCTL_ROLLUP_READ_ADVANCE_STATE returned error " ++ toString res)))
  else
    let logs := if dev.advance_out.payload.length = 0 then
        ["read zero size payload from advance state request"] else []
    ([NativeCall.readAdvance], logs,
     Except.ok { metadata := AdvanceMetadata.from dev.advance_out,
                 payload := ascii "0x" ++ hexEncode dev.advance_out.payload })

/-- `rollup_read_inspect_state_request`: same shape as the advance
reader, payload only. -/
def rollup_read_inspect_state_request (dev : Device) :
    List NativeCall × List String × Except RollupError InspectRequest :=
  let res := dev.inspect_status
  if res ≠ 0 then
    ([NativeCall.readInspect], [],
     Except.error (RollupError.new ("IOCTL_ROLLUP_READ_INSPECT_STATE returned error " ++ toString res)))
  else
    let logs := if dev.inspect_out.payload.length = 0 then
        ["read zero size payload from inspect state request"] else []
    ([NativeCall.readInspect], logs,
     Except.ok { payload := ascii "0x" ++ hexEncode dev.inspect_out.payload })

/-- `rollup_write_notice`: slices the payload text (panic = `none` on a
bad slice), hex-decodes it (decode failure returns the payload format
error with no native call), then issues the emit-notice native call and
returns the device-assigned index unless the status is nonzero. -/
def rollup_write_notice (dev : Device) (notice : Notice) :
    Option (List NativeCall × Except RollupError Nat) :=
  match sliceFrom2 notice.payload with
  | none => none
  | some sliced =>
    match hexDecode sliced with
    | Except.error _ =>
      some ([], Except.error (RollupError.new
        ("Error decoding notice payload, payload must be in Ethereum hex binary format")))
    | Except.ok binary_payload =>
      if dev.emit_notice_status ≠ 0 then
        some ([NativeCall.emitNotice binary_payload],
              Except.error (RollupError.new
                ("IOCTL_ROLLUP_WRITE_NOTICE returned error " ++ toString dev.emit_notice_status)))
      else
        some ([NativeCall.emitNotice binary_payload], Except.ok dev.notice_index)

/-- `rollup_write_voucher`: hex-decodes the payload, then the value,
then the destination, in that order, each via the unchecked `[2..]`
slice; the first decode failure returns its format error with no
native call; only when all three decode does it issue the emit-voucher
native call. No pattern validation happens in this function. -/
def rollup_write_voucher (dev : Device) (voucher : Voucher) :
    Option (List NativeCall × Except RollupError Nat) :=
  match sliceFrom2 voucher.payload with
  | none => none
  | some payload_sliced =>
    match hexDecode payload_sliced with
    | Except.error _ =>
      some ([], Except.error (RollupError.new
        ("Error decoding voucher payload, it must be in Ethereum hex binary format")))
    | Except.ok binary_payload =>
      match sliceFrom2 voucher.value with
      | none => none
      | some value_sliced =>
        match hexDecode value_sliced with
        | Except.error _ =>
          some ([], Except.error (RollupError.new
            ("Error decoding voucher value, it must be in Ethereum hex binary format")))
        | Except.ok binary_value =>
          match sliceFrom2 voucher.destination with
          | none => none
          | some destination_sliced =>
            match hexDecode destination_sliced with
            | Except.error e =>
              some ([], Except.error (RollupError.new
                ("address not valid: " ++ hexErrorDisplay e)))
            | Except.ok address_c =>
              if dev.emit_voucher_status ≠ 0 then
                some ([NativeCall.emitVoucher address_c binary_value binary_payload],
                      Except.error (RollupError.new
                        ("IOCTL_ROLLUP_WRITE_VOUCHER returned error " ++ toString dev.emit_voucher_status)))
              else
                some ([NativeCall.emitVoucher address_c binary_value binary_payload],
                      Except.ok dev.voucher_index)

/-- `rollup_write_report`: decode the payload, then issue the
emit-report native call; no index is returned. -/
def rollup_write_report (dev : Device) (report : Report) :
    Option (List NativeCall × Except RollupError Unit) :=
  match sliceFrom2 report.payload with
  | none => none
  | some sliced =>
    match hexDecode sliced with
    | Except.error _ =>
      some ([], Except.error (RollupError.new
        ("Error decoding report payload, payload must be in Ethereum hex binary format")))
    | Except.ok binary_payload =>
      if dev.emit_report_status ≠ 0 then
        some ([NativeCall.emitReport binary_payload],
              Except.error (RollupError.new
                ("IOCTL_ROLLUP_WRITE_REPORT returned error " ++ toString dev.emit_report_status)))
      else
        some ([NativeCall.emitReport binary_payload], Except.ok ())

/-- `rollup_throw_exception`: decode the payload, then issue the
emit-exception native call. -/
def rollup_throw_exception (dev : Device) (exception : Exception) :
    Option (List NativeCall × Except RollupError Unit) :=
  match sliceFrom2 exception.payload with
  | none => none
  | some sliced =>
    match hexDecode sliced with
    | Except.error _ =>
      some ([], Except.error (RollupError.new
        ("Error decoding report payload, payload must be in Ethereum hex binary format")))
    | Except.ok binary_payload =>
      if dev.emit_exception_status ≠ 0 then
        some ([NativeCall.emitException binary_payload],
              Except.error (RollupError.new
                ("IOCTL_ROLLUP_THROW_EXCEPTION returned error " ++ toString dev.emit_exception_status)))
      else
        some ([NativeCall.emitException binary_payload], Except.ok ())

/-- `perform_rollup_finish_request`: a default (all zero) finish struct
with the accept flag set is passed to `rollup_finish_request`; a
failure is wrapped into an io error of kind Other carrying the display
text of the rollup error. -/
def perform_rollup_finish_request (dev : Device) (accept : Bool) :
    List NativeCall × Except IoError RollupFinish :=
  let finish_request :=
    { RollupFinish.default with accept_previous_request := accept }
  match rollup_finish_request dev finish_request with
  | (calls, f, Except.ok _) => (calls, Except.ok f)
  | (calls, _, Except.error e) =>
    (calls, Except.error { kind := IoErrorKind.other, message := e.display })

/-- The i32-to-u32 cast `finish_request.next_request_type as u32`. -/
def i32AsU32 (t : Int) : Nat :=
  (t % 2 ^ 32).toNat

/-- `handle_rollup_requests`: dispatches on the cast request type;
0 reads an advance request, 1 reads an inspect request, anything else
returns an Unsupported io error with a fixed message and issues no
native call. -/
def handle_rollup_requests (dev : Device) (finish_request : RollupFinish) :
    List NativeCall × Except IoError RollupRequest :=
  let next_request_type := i32AsU32 finish_request.next_request_type
  if next_request_type = 0 then
    match rollup_read_advance_state_request dev with
    | (calls, _, Except.ok r) => (calls, Except.ok (RollupRequest.Advance r))
    | (calls, _, Except.error e) =>
      (calls, Except.error { kind := IoErrorKind.other, message := e.display })
  else if next_request_type = 1 then
    match rollup_read_inspect_state_request dev with
    | (calls, _, Except.ok r) => (calls, Except.ok (RollupRequest.Inspect r))
    | (calls, _, Except.error e) =>
      (calls, Except.error { kind := IoErrorKind.other, message := e.display })
  else
    ([], Except.error { kind := IoErrorKind.unsupported, message := "request type unsupported" })

/-- The handle struct `RollupFd(*mut cmt_rollup_t)`: a raw pointer to
the leaked, zero-initialised native session struct. The source derives
`Clone` on it. -/
structure RollupFd where
  ptr : Nat
deriving DecidableEq

/-- The derived `Clone` impl: cloning copies the raw pointer, yielding
a second handle over the same native session. -/
def RollupFd.clone (fd : RollupFd) : RollupFd :=
  { ptr := fd.ptr }

/-- Native lifecycle calls on a session allocation. -/
inductive LifecycleCall
  | init (p : Nat)
  | fini (p : Nat)
  | free (p : Nat)
deriving DecidableEq

/-- The `Drop` impl of `RollupFd`: dropping a handle runs
`cmt_rollup_fini` on its pointer and then frees the box behind it
(`drop(Box::from_raw(self.0))`). -/
def RollupFd.dropCalls (fd : RollupFd) : List LifecycleCall :=
  [LifecycleCall.fini fd.ptr, LifecycleCall.free fd.ptr]

/-- `RollupFd::create()` over a fresh session allocation at `p`, when
the native init call returns `status`: the init call is issued, and the
handle exists only on a zero status. -/
def RollupFd.create (p : Nat) (status : Int) :
    List LifecycleCall × Except Int RollupFd :=
  if status ≠ 0 then ([LifecycleCall.init p], Except.error status)
  else ([LifecycleCall.init p], Except.ok { ptr := p })

/-- Whole-lifetime native-call trace of the scenario permitted by the
`Clone` derive: create a handle over session `p` with a successful
init, clone it, then let both handles go out of scope (each drop runs
the `Drop` impl). -/
def cloneDropTrace (p : Nat) : List LifecycleCall :=
  match RollupFd.create p 0 with
  | (calls, Except.ok fd) => calls ++ fd.dropCalls ++ fd.clone.dropCalls
  | (calls, Except.error _) => calls

/-- Number of `cmt_rollup_fini` calls on session `p` in a trace. -/
def finiCount (p : Nat) (t : List LifecycleCall) : Nat :=
  t.countP (fun c => decide (c = LifecycleCall.fini p))

/-- A device answering success (status 0) to every native call, with
empty descriptors and index 0 for notices and vouchers. -/
def devOK : Device :=
  { finish_status := 0,
    finish_out := { accept_previous_request := false, next_request_type := 0,
                    next_request_payload_length := 0 },
    advance_status := 0,
    advance_out := { chain_id := 0, msg_sender := List.replicate 20 0,
                     app_contract := List.replicate 20 0, block_number := 0,
                     block_timestamp := 0, index := 0, payload := [] },
    inspect_status := 0,
    inspect_out := { payload := [] },
    emit_notice_status := 0, notice_index := 0,
    emit_voucher_status := 0, voucher_index := 0,
    emit_report_status := 0, emit_exception_status := 0 }

/-- Device for the advance scenario of claim C5: the finish call
succeeds reporting request type 0 with payload length 4, and the
advance descriptor holds bytes DE AD BE EF, an all-zero 20-byte
sender, block number 10, block timestamp 1000 and index 3. -/
def dev5 : Device :=
  { devOK with
    finish_out := { accept_previous_request := true, next_request_type := 0,
                    next_request_payload_length := 4 },
    advance_out := { chain_id := 0, msg_sender := List.replicate 20 0,
                     app_contract := List.replicate 20 0, block_number := 10,
                     block_timestamp := 1000, index := 3,
                     payload := [222, 173, 190, 239] } }

/-- Device whose finish call returns the positive nonzero status 1 and
fills the response struct with request type 1, length 0. -/
def devFinishPos : Device :=
  { devOK with
    finish_status := 1,
    finish_out := { accept_previous_request := false, next_request_type := 1,
                    next_request_payload_length := 0 } }

/-- Device whose finish call returns the negative status -5. -/
def devFinishNeg : Device :=
  { devOK with finish_status := -5 }

/-- ASCII lowercasing of a byte: uppercase letters map 32 up. -/
def toLowerByte (c : Nat) : Nat :=
  if 65 ≤ c ∧ c ≤ 90 then c + 32 else c

theorem hexDigitVal_none_iff (c : Nat) :
    hexDigitVal c = none ↔ isHexDigit c = false := by
  unfold hexDigitVal isHexDigit
  split_ifs with h1 h2 h3 <;> simp <;> omega

theorem hexDigitVal_some_isHexDigit {c v : Nat} (h : hexDigitVal c = some v) :
    isHexDigit c = true := by
  cases hb : isHexDigit c with
  | false => rw [(hexDigitVal_none_iff c).mpr hb] at h; exact Option.noConfusion h
  | true => rfl

theorem hexDecodePairs_error_iff : ∀ (l : List Nat) (i : Nat), l.length % 2 = 0 →
    ((∃ e, hexDecodePairs l i = Except.error e) ↔ ∃ c ∈ l, isHexDigit c = false)
  | [], _, _ => by simp [hexDecodePairs]
  | [_], _, h => by simp at h
  | c1 :: c2 :: rest, i, h => by
    have hr : rest.length % 2 = 0 := by
      simp only [List.length_cons] at h
      omega
    have ih := hexDecodePairs_error_iff rest (i + 2) hr
    cases hv1 : hexDigitVal c1 with
    | none =>
      simp only [hexDecodePairs, hv1]
      constructor
      · intro _
        exact ⟨c1, by simp, (hexDigitVal_none_iff c1).mp hv1⟩
      · intro _
        exact ⟨FromHexError.invalidHexCharacter c1 i, rfl⟩
    | some hi =>
      cases hv2 : hexDigitVal c2 with
      | none =>
        simp only [hexDecodePairs, hv1, hv2]
        constructor
        · intro _
          exact ⟨c2, by simp, (hexDigitVal_none_iff c2).mp hv2⟩
        · intro _
          exact ⟨FromHexError.invalidHexCharacter c2 (i + 1), rfl⟩
      | some lo =>
        cases hrec : hexDecodePairs rest (i + 2) with
        | error e =>
          simp only [hexDecodePairs, hv1, hv2, hrec]
          obtain ⟨c, hc, hbad⟩ := ih.mp ⟨e, hrec⟩
          constructor
          · intro _
            exact ⟨c, by simp [hc], hbad⟩
          · intro _
            exact ⟨e, rfl⟩
        | ok bs =>
          simp only [hexDecodePairs, hv1, hv2, hrec]
          constructor
          · rintro ⟨e, he⟩
            exact Except.noConfusion he
          · rintro ⟨c, hc, hbad⟩
            simp only [List.mem_cons] at hc
            rcases hc with rfl | rfl | hc
            · rw [hexDigitVal_some_isHexDigit hv1] at hbad
              exact Bool.noConfusion hbad
            · rw [hexDigitVal_some_isHexDigit hv2] at hbad
              exact Bool.noConfusion hbad
            · obtain ⟨e, he⟩ := ih.mpr ⟨c, hc, hbad⟩
              rw [hrec] at he
              exact Except.noConfusion he

theorem hexDecode_error_iff (s : List Nat) :
    (∃ e, hexDecode s = Except.error e) ↔
      s.length % 2 = 1 ∨ ∃ c ∈ s, isHexDigit c = false := by
  unfold hexDecode
  by_cases hpar : s.length % 2 = 0
  · rw [if_neg (by omega)]
    rw [hexDecodePairs_error_iff s 0 hpar]
    constructor
    · exact Or.inr
    · rintro (h | h)
      · omega
      · exact h
  · rw [if_pos (by omega)]
    constructor
    · intro _
      exact Or.inl (by omega)
    · intro _
      exact ⟨FromHexError.oddLength, rfl⟩

theorem hexDecode_ok_iff (s : List Nat) :
    (∃ bs, hexDecode s = Except.ok bs) ↔
      s.length % 2 = 0 ∧ ∀ c ∈ s, isHexDigit c = true := by
  have herr := hexDecode_error_iff s
  cases hd : hexDecode s with
  | error e =>
    have hrhs := herr.mp ⟨e, hd⟩
    constructor
    · rintro ⟨bs, hbs⟩
      exact Except.noConfusion hbs
    · rintro ⟨hpar, hall⟩
      rcases hrhs with h | ⟨c, hc, hbad⟩
      · omega
      · rw [hall c hc] at hbad
        exact Bool.noConfusion hbad
  | ok bs =>
    constructor
    · intro _
      refine ⟨?_, ?_⟩
      · by_contra hpar
        obtain ⟨e, he⟩ := herr.mpr (Or.inl (by omega))
        rw [hd] at he
        exact Except.noConfusion he
      · intro c hc
        by_contra hbad
        obtain ⟨e, he⟩ := herr.mpr (Or.inr ⟨c, hc, by simpa using hbad⟩)
        rw [hd] at he
        exact Except.noConfusion he
    · intro _
      exact ⟨bs, rfl⟩

theorem lower_hexCharOfDigit : ∀ d, d < 16 → isLowerHexDigit (hexCharOfDigit d) = true := by
  decide

theorem hexDigitVal_hexCharOfDigit : ∀ d, d < 16 → hexDigitVal (hexCharOfDigit d) = some d := by
  decide

set_option maxRecDepth 4000 in
theorem hexDigitVal_toLowerByte : ∀ c, c < 256 → hexDigitVal (toLowerByte c) = hexDigitVal c := by
  decide

theorem hexEncode_length (bs : List Nat) : (hexEncode bs).length = 2 * bs.length := by
  induction bs with
  | nil => rfl
  | cons b bs ih =>
    simp only [hexEncode, List.length_cons, ih]
    omega

theorem hexEncode_mem (bs : List Nat) : ∀ c ∈ hexEncode bs, isLowerHexDigit c = true := by
  induction bs with
  | nil => intro c hc; exact absurd hc (List.not_mem_nil c)
  | cons b bs ih =>
    intro c hc
    simp only [hexEncode, List.mem_cons] at hc
    rcases hc with rfl | rfl | hc
    · exact lower_hexCharOfDigit _ (Nat.div_lt_of_lt_mul (Nat.mod_lt b (by omega)))
    · exact lower_hexCharOfDigit _ (Nat.mod_lt b (by omega))
    · exact ih c hc

theorem hexDecodePairs_hexEncode :
    ∀ (bs : List Nat) (i : Nat),
      hexDecodePairs (hexEncode bs) i = Except.ok (bs.map (fun b => b % 256))
  | [], _ => rfl
  | b :: bs, i => by
    have h1 : hexDigitVal (hexCharOfDigit (b % 256 / 16)) = some (b % 256 / 16) :=
      hexDigitVal_hexCharOfDigit _ (Nat.div_lt_of_lt_mul (Nat.mod_lt b (by omega)))
    have h2 : hexDigitVal (hexCharOfDigit (b % 16)) = some (b % 16) :=
      hexDigitVal_hexCharOfDigit _ (Nat.mod_lt b (by omega))
    have ih := hexDecodePairs_hexEncode bs (i + 2)
    simp only [hexEncode, hexDecodePairs, h1, h2, ih, List.map_cons]
    have : b % 256 / 16 * 16 + b % 16 = b % 256 := by omega
    rw [this]

theorem hexDecode_hexEncode (bs : List Nat) :
    hexDecode (hexEncode bs) = Except.ok (bs.map (fun b => b % 256)) := by
  unfold hexDecode
  rw [if_neg (by rw [hexEncode_length]; omega)]
  exact hexDecodePairs_hexEncode bs 0

theorem sliceFrom2_short {s : List Nat} (h : s.length < 2) : sliceFrom2 s = none := by
  have hg : s.get? 2 = none := List.get?_eq_none.mpr (by omega)
  have hb : isCharBoundary s 2 = false := by
    unfold isCharBoundary
    rw [if_neg (by omega : ¬ (2 : Nat) = 0), hg]
    show decide (2 = s.length) = false
    simp only [decide_eq_false_iff_not]
    omega
  unfold sliceFrom2
  rw [hb]
  rfl

theorem ascii_0x : ascii "0x" = [48, 120] := by decide

theorem sliceFrom2_cons_cons {a b : Nat} (t : List Nat)
    (h : t = [] ∨ ∃ c t2, t = c :: t2 ∧ c < 128) :
    sliceFrom2 (a :: b :: t) = some t := by
  have hb : isCharBoundary (a :: b :: t) 2 = true := by
    rcases h with rfl | ⟨c, t2, rfl, hc⟩
    · rfl
    · unfold isCharBoundary
      rw [if_neg (by omega : ¬ (2 : Nat) = 0)]
      show decide (c < 128 ∨ 192 ≤ c) = true
      simp only [decide_eq_true_eq]
      omega
  unfold sliceFrom2
  rw [hb]
  rfl

theorem sliceFrom2_rollupEncode (bs : List Nat) :
    sliceFrom2 (rollupEncode bs) = some (hexEncode bs) := by
  have h : rollupEncode bs = 48 :: 120 :: hexEncode bs := by
    unfold rollupEncode
    rw [ascii_0x]
    rfl
  rw [h]
  apply sliceFrom2_cons_cons
  cases he : hexEncode bs with
  | nil => exact Or.inl rfl
  | cons c t2 =>
    refine Or.inr ⟨c, t2, rfl, ?_⟩
    have := hexEncode_mem bs c (by rw [he]; simp)
    unfold isLowerHexDigit at this
    simp only [decide_eq_true_eq] at this
    omega

theorem matchesHexTail_iff (lo hi : Nat) (l : List Nat) :
    matchesHexTail lo hi l = true ↔
      ∃ ds, l = 48 :: 120 :: ds ∧ lo ≤ ds.length ∧ ds.length ≤ hi ∧ ds.all isHexDigit = true := by
  unfold matchesHexTail
  split
  · rename_i ds
    simp only [Bool.and_eq_true, decide_eq_true_eq]
    constructor
    · rintro ⟨⟨hall, h1⟩, h2⟩
      exact ⟨ds, rfl, h1, h2, hall⟩
    · rintro ⟨ds2, heq, h1, h2, hall⟩
      obtain rfl : ds2 = ds := by
        injection heq with _ heq2
        injection heq2 with _ heq3
        exact heq3.symm
      exact ⟨⟨hall, h1⟩, h2⟩
  · rename_i hne
    constructor
    · intro hf
      exact Bool.noConfusion hf
    · rintro ⟨ds, rfl, _, _, _⟩
      exact (hne ds rfl).elim

theorem regexSearchAnchoredEnd_iff (lo hi : Nat) (s : List Nat) :
    regexSearchAnchoredEnd lo hi s = true ↔
      ∃ pre ds, s = pre ++ 48 :: 120 :: ds ∧
        lo ≤ ds.length ∧ ds.length ≤ hi ∧ ds.all isHexDigit = true := by
  unfold regexSearchAnchoredEnd
  rw [List.any_eq_true]
  constructor
  · rintro ⟨i, _, hmatch⟩
    obtain ⟨ds, hds, h1, h2, hall⟩ := (matchesHexTail_iff lo hi (s.drop i)).mp hmatch
    refine ⟨s.take i, ds, ?_, h1, h2, hall⟩
    rw [← hds, List.take_append_drop]
  · rintro ⟨pre, ds, rfl, h1, h2, hall⟩
    refine ⟨pre.length, ?_, ?_⟩
    · rw [List.mem_range, List.length_append]
      omega
    · rw [List.drop_left]
      exact (matchesHexTail_iff lo hi _).mpr ⟨ds, rfl, h1, h2, hall⟩

/-- Claim C2 (code_bug evidence): the derived `Clone` impl duplicates
the handle (the clone holds the same session pointer), and in the
create-clone-drop-drop scenario the native `cmt_rollup_fini` runs twice
over the session, not exactly once as the claim requires. -/
theorem claim_C2_clone_double_fini :
    RollupFd.clone { ptr := 0 } = ({ ptr := 0 } : RollupFd) ∧
    finiCount 0 (cloneDropTrace 0) = 2 := by
  decide

/-- Claim C5: with a successful Finish Step reporting request type 0
and payload length 4, and the advance descriptor holding payload bytes
DE AD BE EF, an all-zero 20-byte sender, block number 10, block
timestamp 1000 and index 3, the Request Reader yields an Advance
request with msg_sender `0x` + 40 zeros, input_index 3, block_number
10, block_timestamp 1000 and payload `0xdeadbeef`. -/
theorem claim_C5_advance_scenario :
    perform_rollup_finish_request dev5 true =
      ([NativeCall.finish { accept_previous_request := true, next_request_type := 0,
                            next_request_payload_length := 0 }],
       Except.ok { accept_previous_request := true, next_request_type := 0,
                   next_request_payload_length := 4 }) ∧
    handle_rollup_requests dev5
        { accept_previous_request := true, next_request_type := 0,
          next_request_payload_length := 4 } =
      ([NativeCall.readAdvance],
       Except.ok (RollupRequest.Advance
         { metadata := { msg_sender := ascii "0x0000000000000000000000000000000000000000",
                         input_index := 3, block_number := 10, block_timestamp := 1000 },
           payload := ascii "0xdeadbeef" })) := by
  decide

/-- Claim C1 counterexample: the destination `0x` does not satisfy the
address pattern, yet `rollup_write_voucher` does not fail with an
address format error: it decodes all three fields (the slice leaves the
empty string, which hex-decodes to no bytes), issues the native
emit-voucher call and succeeds. The function performs no pattern
validation at all. -/
theorem claim_C1_counterexample :
    ETH_ADDR_REGEXP_is_match (ascii "0x") = false ∧
    rollup_write_voucher devOK
        { destination := ascii "0x", value := ascii "0x01", payload := ascii "0x" } =
      some ([NativeCall.emitVoucher [] [1] []], Except.ok 0) := by
  decide

/-- Claim C3 counterexample: the text `zz01` does not start with `0x`,
yet the decode used by the emitters succeeds (the first two bytes are
sliced off unchecked), and `rollup_write_notice` on that payload
decodes byte 01 and issues the native call successfully. -/
theorem claim_C3_counterexample :
    (ascii "zz01").take 2 ≠ ascii "0x" ∧
    rollupDecode (ascii "zz01") = some (Except.ok [1]) ∧
    rollup_write_notice devOK { payload := ascii "zz01" } =
      some ([NativeCall.emitNotice [1]], Except.ok 0) := by
  decide

/-- Claim C4 counterexample: the native finish call returns the
positive nonzero status 1, yet `rollup_finish_request` (and hence
`perform_rollup_finish_request`) succeeds and overwrites the finish
struct with device data — the code only fails on a negative status. -/
theorem claim_C4_counterexample :
    devFinishPos.finish_status = 1 ∧
    perform_rollup_finish_request devFinishPos true =
      ([NativeCall.finish { accept_previous_request := true, next_request_type := 0,
                            next_request_payload_length := 0 }],
       Except.ok { accept_previous_request := false, next_request_type := 1,
                   next_request_payload_length := 0 }) := by
  decide

/-- Claim C6 counterexample: for an unsupported request type the error
is the fixed io error of kind Unsupported with message
`request type unsupported`; it does not carry the offending value — the
errors produced for types 7 and 8 are identical. -/
theorem claim_C6_counterexample :
    handle_rollup_requests devOK { RollupFinish.default with next_request_type := 7 } =
      handle_rollup_requests devOK { RollupFinish.default with next_request_type := 8 } ∧
    (handle_rollup_requests devOK { RollupFinish.default with next_request_type := 7 }).2 =
      Except.error { kind := IoErrorKind.unsupported, message := "request type unsupported" } := by
  decide

/-- Claim C1 (amended): `rollup_write_voucher` performs no pattern
validation; it hex-decodes payload, then value, then destination, and
when the destination is the first field failing to decode it returns
the address error with no native call issued. The claim example
(destination `0xZZ`, value `0x01`, payload `0x`) lands here, but only
after the payload and the value were already hex-decoded. -/
theorem claim_C1_amended :
    ∀ (dev : Device) (v : Voucher) (ps bp vs bv ds : List Nat) (e : FromHexError),
      sliceFrom2 v.payload = some ps → hexDecode ps = Except.ok bp →
      sliceFrom2 v.value = some vs → hexDecode vs = Except.ok bv →
      sliceFrom2 v.destination = some ds → hexDecode ds = Except.error e →
      rollup_write_voucher dev v =
        some ([], Except.error (RollupError.new
          ("address not valid: " ++ hexErrorDisplay e))) := by
  intro dev v ps bp vs bv ds e hp1 hp2 hv1 hv2 hd1 hd2
  simp only [rollup_write_voucher, hp1, hp2, hv1, hv2, hd1, hd2]

/-- Witness for claim C1 (amended) at the claim example. -/
theorem claim_C1_amended_witness :
    rollup_write_voucher devOK
        { destination := ascii "0xZZ", value := ascii "0x01", payload := ascii "0x" } =
      some ([], Except.error (RollupError.new
        ("address not valid: " ++
          hexErrorDisplay (FromHexError.invalidHexCharacter 90 0)))) :=
  claim_C1_amended devOK
    { destination := ascii "0xZZ", value := ascii "0x01", payload := ascii "0x" }
    [] [] (ascii "01") [1] (ascii "ZZ") (FromHexError.invalidHexCharacter 90 0)
    (by decide) (by decide) (by decide) (by decide) (by decide) (by decide)

/-- Claim C3 (amended): the decode used by the four emitters strips the
first two bytes of the text without checking them; on the remaining
text it fails with the payload format error exactly when that text has
odd length or contains a non-hex character, and succeeds otherwise,
regardless of what the first two bytes were; hex digit values are
case-insensitive. A decode failure makes the notice emitter return the
payload format error (with no native call). -/
theorem claim_C3_amended :
    ∀ (s rest : List Nat), sliceFrom2 s = some rest →
      ((∃ e, rollupDecode s = some (Except.error e)) ↔
        rest.length % 2 = 1 ∨ ∃ c ∈ rest, isHexDigit c = false) ∧
      ((∃ bs, rollupDecode s = some (Except.ok bs)) ↔
        rest.length % 2 = 0 ∧ ∀ c ∈ rest, isHexDigit c = true) ∧
      (∀ (dev : Device) (e : FromHexError),
        rollupDecode s = some (Except.error e) →
        rollup_write_notice dev { payload := s } =
          some ([], Except.error (RollupError.new
            ("Error decoding notice payload, payload must be in Ethereum hex binary format")))) ∧
      (∀ c, c < 256 → hexDigitVal (toLowerByte c) = hexDigitVal c) := by
  intro s rest hs
  have hd : rollupDecode s = some (hexDecode rest) := by
    simp only [rollupDecode, hs]
  refine ⟨?_, ?_, ?_, hexDigitVal_toLowerByte⟩
  · rw [hd]
    simp only [Option.some.injEq]
    exact hexDecode_error_iff rest
  · rw [hd]
    simp only [Option.some.injEq]
    exact hexDecode_ok_iff rest
  · intro dev e he
    rw [hd] at he
    injection he with he2
    simp only [rollup_write_notice, hs, he2]

/-- Witness for claim C3 (amended): decoding fails on a non-hex suffix
and succeeds case-insensitively on a valid one. -/
theorem claim_C3_amended_witness :
    (∃ e, rollupDecode (ascii "0xgg") = some (Except.error e)) ∧
    (∃ bs, rollupDecode (ascii "0xAb") = some (Except.ok bs)) :=
  ⟨((claim_C3_amended (ascii "0xgg") (ascii "gg") (by decide)).1).mpr
      (Or.inr ⟨103, by decide, by decide⟩),
   ((claim_C3_amended (ascii "0xAb") (ascii "Ab") (by decide)).2.1).mpr
      ⟨by decide, by decide⟩⟩

/-- Claim C4 (amended): the Finish Step passes a structure with the
accept flag set and zeroed request-type/length fields to the device;
it fails with the device error carrying the native code exactly when
the native status is negative (a zero or positive status is treated as
success), and on failure the caller-visible finish structure is not
overwritten with device data. -/
theorem claim_C4_amended :
    ∀ (dev : Device) (accept : Bool) (f : RollupFinish),
      (perform_rollup_finish_request dev accept).1 =
        [NativeCall.finish { accept_previous_request := accept, next_request_type := 0,
                             next_request_payload_length := 0 }] ∧
      (dev.finish_status < 0 →
        (perform_rollup_finish_request dev accept).2 =
          Except.error { kind := IoErrorKind.other,
                         message := "rollup error: " ++
                           ("IOCTL_ROLLUP_FINISH returned error " ++ toString dev.finish_status) } ∧
        (rollup_finish_request dev f).2.1 = f) ∧
      (0 ≤ dev.finish_status →
        (perform_rollup_finish_request dev accept).2 =
          Except.ok (RollupFinish.fromCmt dev.finish_out)) := by
  intro dev accept f
  by_cases h : dev.finish_status < 0
  · refine ⟨?_, fun _ => ⟨?_, ?_⟩, fun h2 => absurd h (by omega)⟩
    · simp only [perform_rollup_finish_request, rollup_finish_request,
                 RollupFinish.default, cmt_rollup_finish_t.from, if_pos h, Nat.zero_mod]
    · simp only [perform_rollup_finish_request, rollup_finish_request,
                 RollupFinish.default, cmt_rollup_finish_t.from, if_pos h,
                 RollupError.display, RollupError.new]
    · simp only [rollup_finish_request, if_pos h]
  · refine ⟨?_, fun h2 => absurd h2 h, fun _ => ?_⟩
    · simp only [perform_rollup_finish_request, rollup_finish_request,
                 RollupFinish.default, cmt_rollup_finish_t.from, if_neg h, Nat.zero_mod]
    · simp only [perform_rollup_finish_request, rollup_finish_request,
                 RollupFinish.default, cmt_rollup_finish_t.from, if_neg h]

/-- Witness for claim C4 (amended) at a device returning status -5. -/
theorem claim_C4_amended_witness :
    (perform_rollup_finish_request devFinishNeg true).2 =
      Except.error { kind := IoErrorKind.other,
                     message := "rollup error: " ++
                       ("IOCTL_ROLLUP_FINISH returned error " ++ toString devFinishNeg.finish_status) } ∧
    (rollup_finish_request devFinishNeg RollupFinish.default).2.1 = RollupFinish.default :=
  (claim_C4_amended devFinishNeg true RollupFinish.default).2.1 (by decide)

/-- Claim C7 counterexample: a voucher whose value has byte length 0
(below 2) does not make the operation panic when an earlier field
already fails to decode: with payload `0xZZ` the operation returns the
payload format error normally. -/
theorem claim_C7_counterexample :
    (ascii "").length < 2 ∧
    rollup_write_voucher devOK
        { destination := ascii "0x00", value := ascii "", payload := ascii "0xZZ" } =
      some ([], Except.error (RollupError.new
        ("Error decoding voucher payload, it must be in Ethereum hex binary format"))) := by
  decide

theorem advance_reader_calls (dev : Device) :
    (rollup_read_advance_state_request dev).1 = [NativeCall.readAdvance] := by
  simp only [rollup_read_advance_state_request]
  split
  · rfl
  · rfl

theorem inspect_reader_calls (dev : Device) :
    (rollup_read_inspect_state_request dev).1 = [NativeCall.readInspect] := by
  simp only [rollup_read_inspect_state_request]
  split
  · rfl
  · rfl

/-- Claim C6 (amended): the Request Reader dispatches on the cast
request type: 0 issues exactly the advance-read native call, 1 issues
exactly the inspect-read native call, and every other value issues no
native call and fails with the io error of kind Unsupported and fixed
message `request type unsupported` (the offending value is not carried
in the error). -/
theorem claim_C6_amended :
    ∀ (dev : Device) (f : RollupFinish),
      (i32AsU32 f.next_request_type = 0 →
        (handle_rollup_requests dev f).1 = [NativeCall.readAdvance]) ∧
      (i32AsU32 f.next_request_type = 1 →
        (handle_rollup_requests dev f).1 = [NativeCall.readInspect]) ∧
      (i32AsU32 f.next_request_type ≠ 0 → i32AsU32 f.next_request_type ≠ 1 →
        handle_rollup_requests dev f =
          ([], Except.error { kind := IoErrorKind.unsupported,
                              message := "request type unsupported" })) := by
  intro dev f
  refine ⟨fun h0 => ?_, fun h1 => ?_, fun h0 h1 => ?_⟩
  · simp only [handle_rollup_requests]
    rw [if_pos h0]
    have hc := advance_reader_calls dev
    rcases hr : rollup_read_advance_state_request dev with ⟨calls, logs, res⟩
    rw [hr] at hc
    cases res <;> simpa using hc
  · simp only [handle_rollup_requests]
    have h0 : ¬ i32AsU32 f.next_request_type = 0 := by omega
    rw [if_neg h0, if_pos h1]
    have hc := inspect_reader_calls dev
    rcases hr : rollup_read_inspect_state_request dev with ⟨calls, logs, res⟩
    rw [hr] at hc
    cases res <;> simpa using hc
  · simp only [handle_rollup_requests]
    rw [if_neg h0, if_neg h1]

/-- Witness for claim C6 (amended) at request type 9. -/
theorem claim_C6_amended_witness :
    handle_rollup_requests devOK { RollupFinish.default with next_request_type := 9 } =
      ([], Except.error { kind := IoErrorKind.unsupported,
                          message := "request type unsupported" }) :=
  (claim_C6_amended devOK
    { RollupFinish.default with next_request_type := 9 }).2.2 (by decide) (by decide)

/-- Claim C7 (amended): each emitter panics (out-of-bounds string
slice) when the field it is about to slice has byte length below 2: the
payload unconditionally for all four operations, and for vouchers also
the value (once the payload decoded) and the destination (once payload
and value decoded); so the operations are not total over strings. -/
theorem claim_C7_amended :
    (∀ (dev : Device) (n : Notice), n.payload.length < 2 →
      rollup_write_notice dev n = none) ∧
    (∀ (dev : Device) (r : Report), r.payload.length < 2 →
      rollup_write_report dev r = none) ∧
    (∀ (dev : Device) (e : Exception), e.payload.length < 2 →
      rollup_throw_exception dev e = none) ∧
    (∀ (dev : Device) (v : Voucher), v.payload.length < 2 →
      rollup_write_voucher dev v = none) ∧
    (∀ (dev : Device) (v : Voucher) (ps bp : List Nat),
      sliceFrom2 v.payload = some ps → hexDecode ps = Except.ok bp →
      v.value.length < 2 → rollup_write_voucher dev v = none) ∧
    (∀ (dev : Device) (v : Voucher) (ps bp vs bv : List Nat),
      sliceFrom2 v.payload = some ps → hexDecode ps = Except.ok bp →
      sliceFrom2 v.value = some vs → hexDecode vs = Except.ok bv →
      v.destination.length < 2 → rollup_write_voucher dev v = none) := by
  refine ⟨?_, ?_, ?_, ?_, ?_, ?_⟩
  · intro dev n h
    simp only [rollup_write_notice, sliceFrom2_short h]
  · intro dev r h
    simp only [rollup_write_report, sliceFrom2_short h]
  · intro dev e h
    simp only [rollup_throw_exception, sliceFrom2_short h]
  · intro dev v h
    simp only [rollup_write_voucher, sliceFrom2_short h]
  · intro dev v ps bp h1 h2 h
    simp only [rollup_write_voucher, h1, h2, sliceFrom2_short h]
  · intro dev v ps bp vs bv h1 h2 h3 h4 h
    simp only [rollup_write_voucher, h1, h2, h3, h4, sliceFrom2_short h]

/-- Witness for claim C7 (amended): the empty notice payload, a
one-byte voucher value and a one-byte voucher destination each panic. -/
theorem claim_C7_amended_witness :
    rollup_write_notice devOK { payload := ascii "" } = none ∧
    rollup_write_voucher devOK
      { destination := ascii "0x00", value := ascii "0", payload := ascii "0x01" } = none ∧
    rollup_write_voucher devOK
      { destination := ascii "0", value := ascii "0x01", payload := ascii "0x" } = none :=
  ⟨claim_C7_amended.1 devOK { payload := ascii "" } (by decide),
   claim_C7_amended.2.2.2.2.1 devOK
     { destination := ascii "0x00", value := ascii "0", payload := ascii "0x01" }
     (ascii "01") [1] (by decide) (by decide) (by decide),
   claim_C7_amended.2.2.2.2.2 devOK
     { destination := ascii "0", value := ascii "0x01", payload := ascii "0x" }
     [] [] (ascii "01") [1] (by decide) (by decide) (by decide) (by decide) (by decide)⟩

/-- Claim C8: when the device descriptor reports a zero-length payload,
both request readers succeed with payload exactly `0x` and log the
zero-size condition. -/
theorem claim_C8_zero_payload :
    ∀ dev : Device,
      dev.advance_status = 0 → dev.advance_out.payload = [] →
      dev.inspect_status = 0 → dev.inspect_out.payload = [] →
      rollup_read_advance_state_request dev =
        ([NativeCall.readAdvance], ["read zero size payload from advance state request"],
         Except.ok { metadata := AdvanceMetadata.from dev.advance_out,
                     payload := ascii "0x" }) ∧
      rollup_read_inspect_state_request dev =
        ([NativeCall.readInspect], ["read zero size payload from inspect state request"],
         Except.ok { payload := ascii "0x" }) := by
  intro dev ha hpa hi hpi
  constructor
  · simp only [rollup_read_advance_state_request, ha, hpa, hexEncode,
               List.length_nil, List.append_nil, ne_eq, not_true_eq_false,
               if_false, if_pos]
  · simp only [rollup_read_inspect_state_request, hi, hpi, hexEncode,
               List.length_nil, List.append_nil, ne_eq, not_true_eq_false,
               if_false, if_pos]

/-- Witness for claim C8 at the all-success device with empty
descriptors. -/
theorem claim_C8_zero_payload_witness :
    rollup_read_advance_state_request devOK =
      ([NativeCall.readAdvance], ["read zero size payload from advance state request"],
       Except.ok { metadata := AdvanceMetadata.from devOK.advance_out,
                   payload := ascii "0x" }) ∧
    rollup_read_inspect_state_request devOK =
      ([NativeCall.readInspect], ["read zero size payload from inspect state request"],
       Except.ok { payload := ascii "0x" }) :=
  claim_C8_zero_payload devOK (by decide) (by decide) (by decide) (by decide)

/-- Claim C9: for every byte sequence, decoding the encoding gives the
bytes back; the encoding starts with `0x`, has two lowercase hex
digits per byte after the prefix (hence even length), and the empty
sequence encodes to exactly `0x`. -/
theorem claim_C9_roundtrip :
    ∀ bs : List Nat, (∀ b ∈ bs, b < 256) →
      rollupDecode (rollupEncode bs) = some (Except.ok bs) ∧
      (rollupEncode bs).take 2 = ascii "0x" ∧
      (rollupEncode bs).length = 2 + 2 * bs.length ∧
      (∀ c ∈ (rollupEncode bs).drop 2, isLowerHexDigit c = true) ∧
      (bs = [] → rollupEncode bs = ascii "0x") := by
  intro bs hb
  have hmap : bs.map (fun b => b % 256) = bs := by
    induction bs with
    | nil => rfl
    | cons b t ih =>
      simp only [List.map_cons]
      rw [Nat.mod_eq_of_lt (hb b (by simp)), ih (fun x hx => hb x (by simp [hx]))]
  have he : rollupEncode bs = 48 :: 120 :: hexEncode bs := by
    unfold rollupEncode
    rw [ascii_0x]
    rfl
  refine ⟨?_, ?_, ?_, ?_, ?_⟩
  · simp only [rollupDecode, sliceFrom2_rollupEncode, hexDecode_hexEncode, hmap]
  · rw [he, ascii_0x]
    rfl
  · rw [he]
    simp only [List.length_cons, hexEncode_length]
    omega
  · rw [he]
    intro c hc
    exact hexEncode_mem bs c hc
  · intro h
    rw [h]
    simp [rollupEncode, hexEncode]

/-- Witness for claim C9 at the bytes DE AD BE EF. -/
theorem claim_C9_roundtrip_witness :
    rollupDecode (rollupEncode [222, 173, 190, 239]) =
      some (Except.ok [222, 173, 190, 239]) ∧
    (rollupEncode [222, 173, 190, 239]).take 2 = ascii "0x" :=
  ⟨(claim_C9_roundtrip [222, 173, 190, 239] (by decide)).1,
   (claim_C9_roundtrip [222, 173, 190, 239] (by decide)).2.1⟩

/-- Claim C10: the address validator accepts exactly the strings in
which some suffix is `0x` followed by 1 to 42 hex digits running to
the end (anchored at the end, not at the start), and the u256
validator is the same with 1 to 64 digits; in particular `0x` + 40
lowercase hex digits is accepted, and so is a string with arbitrary
garbage before a matching suffix. -/
theorem claim_C10_validator_shape :
    (∀ s : List Nat, ETH_ADDR_REGEXP_is_match s = true ↔
      ∃ pre ds, s = pre ++ 48 :: 120 :: ds ∧ 1 ≤ ds.length ∧ ds.length ≤ 42 ∧
        ds.all isHexDigit = true) ∧
    (∀ s : List Nat, ETH_U256_REGEXP_is_match s = true ↔
      ∃ pre ds, s = pre ++ 48 :: 120 :: ds ∧ 1 ≤ ds.length ∧ ds.length ≤ 64 ∧
        ds.all isHexDigit = true) ∧
    ETH_ADDR_REGEXP_is_match (ascii "0x00112233445566778899aabbccddeeff00112233") = true ∧
    ETH_ADDR_REGEXP_is_match (ascii "garbage##0x00112233445566778899aabbccddeeff00112233") = true :=
  ⟨fun s => regexSearchAnchoredEnd_iff 1 42 s,
   fun s => regexSearchAnchoredEnd_iff 1 64 s,
   by decide, by decide⟩

/-- Witness for claim C10: the characterization applied at a concrete
garbage-prefixed string. -/
theorem claim_C10_validator_shape_witness :
    ETH_ADDR_REGEXP_is_match (ascii "zz0xab") = true :=
  (claim_C10_validator_shape.1 (ascii "zz0xab")).mpr
    ⟨[122, 122], [97, 98], by decide, by decide, by decide, by decide⟩
